import Mathlib

/-!
Verification development for the playwright-search repository.

The Python sources under playwright_search are shallowly embedded below:
pure string manipulation becomes functions on List Char / String, the
browser-driving methods become functions from an abstract page model to a
result together with an explicit list of performed effects, and Python
try/except/finally is modelled by explicit combinators on Except values.
Randomness and the host environment (random.choice, datetime.now().hour,
os.getenv, the playwright devices table) are passed in as explicit inputs.
-/

/-! Generic Python / JavaScript string primitives, modelled from their
documented semantics as used by the source. -/

/-- Boolean prefix test on character lists. -/
def isPrefixB : List Char → List Char → Bool
  | [], _ => true
  | _ :: _, [] => false
  | p :: ps, c :: cs => p == c && isPrefixB ps cs

/-- Substring test: JavaScript String.includes / Python `in`. -/
def containsSub (pat : List Char) : List Char → Bool
  | [] => pat.isEmpty
  | c :: rest => isPrefixB pat (c :: rest) || containsSub pat rest

/-- Fuel-indexed worker for Python str.replace: scan left to right, replace
each non-overlapping occurrence of the (nonempty) pattern.  The fuel is the
length of the scanned list, which bounds the recursion since every step
consumes at least one character. -/
def pyReplaceFuel (pat rep : List Char) : Nat → List Char → List Char
  | 0, l => l
  | _ + 1, [] => []
  | fuel + 1, c :: rest =>
    if !pat.isEmpty && isPrefixB pat (c :: rest) then
      rep ++ pyReplaceFuel pat rep fuel ((c :: rest).drop pat.length)
    else
      c :: pyReplaceFuel pat rep fuel rest

/-- Python str.replace(pat, rep) on strings. -/
def pyReplaceStr (s pat rep : String) : String :=
  ⟨pyReplaceFuel pat.data rep.data s.data.length s.data⟩

/-- Python whitespace predicate (str.isspace on a single character), the
separator set of str.split() and str.strip(). U+200B is deliberately not
whitespace in Python. -/
def pyIsSpace (c : Char) : Bool :=
  (0x09 ≤ c.toNat && c.toNat ≤ 0x0d) || c.toNat = 0x20 ||
  (0x1c ≤ c.toNat && c.toNat ≤ 0x1f) || c.toNat = 0x85 || c.toNat = 0xa0 ||
  c.toNat = 0x1680 || (0x2000 ≤ c.toNat && c.toNat ≤ 0x200a) ||
  c.toNat = 0x2028 || c.toNat = 0x2029 || c.toNat = 0x202f ||
  c.toNat = 0x205f || c.toNat = 0x3000

/-- JavaScript whitespace predicate (String.prototype.trim's separator set). -/
def jsIsSpace (c : Char) : Bool :=
  (0x09 ≤ c.toNat && c.toNat ≤ 0x0d) || c.toNat = 0x20 || c.toNat = 0xa0 ||
  c.toNat = 0x1680 || (0x2000 ≤ c.toNat && c.toNat ≤ 0x200a) ||
  c.toNat = 0x2028 || c.toNat = 0x2029 || c.toNat = 0x202f ||
  c.toNat = 0x205f || c.toNat = 0x3000 || c.toNat = 0xfeff

/-- Worker for Python str.split with no separator: split on runs of
whitespace, dropping empty pieces.  The accumulator holds the current word
reversed. -/
def pySplitAux : List Char → List Char → List (List Char)
  | [], [] => []
  | [], a :: acc => [(a :: acc).reverse]
  | c :: rest, acc =>
    if pyIsSpace c then
      match acc with
      | [] => pySplitAux rest []
      | a :: acc' => (a :: acc').reverse :: pySplitAux rest []
    else
      pySplitAux rest (c :: acc)

/-- Python " ".join on a list of words. -/
def joinWords : List (List Char) → List Char
  | [] => []
  | [w] => w
  | w :: x :: ws => w ++ ' ' :: joinWords (x :: ws)

/-- Python str.strip(): drop leading and trailing whitespace. -/
def pyStrip (l : List Char) : List Char :=
  ((l.dropWhile pyIsSpace).reverse.dropWhile pyIsSpace).reverse

/-- JavaScript String.prototype.trim. -/
def jsTrim (l : List Char) : List Char :=
  ((l.dropWhile jsIsSpace).reverse.dropWhile jsIsSpace).reverse

/-- Python `a or b` for an optional string operand: None and "" are falsy. -/
def pyOrS : Option String → String → String
  | none, d => d
  | some s, d => if s = "" then d else s

/-- Python `a or b` for an optional integer operand: None and 0 are falsy. -/
def pyOrInt : Option Int → Int → Int
  | none, d => d
  | some n, d => if n = 0 then d else n

/-- Python str.lower restricted to ASCII letters (all engine keys are ASCII). -/
def pyLowerChar (c : Char) : Char :=
  if 'A' ≤ c && c ≤ 'Z' then Char.ofNat (c.toNat + 32) else c

/-- Python str.lower on a string. -/
def pyLower (s : String) : String := ⟨s.data.map pyLowerChar⟩

/-! Identity store: BrowserManager fingerprint synthesis and persistence,
embedded from browser_manager.py. -/

/-- Fingerprint value object: the seven fields produced by
BrowserManager._get_host_machine_config. -/
structure Fingerprint where
  deviceName : String
  locale : String
  timezoneId : String
  colorScheme : String
  reducedMotion : String
  forcedColors : String
  userAgent : String
deriving DecidableEq

/-- Environment and randomness consumed by one invocation of
_get_host_machine_config: os.getenv("LANG"), datetime.now().hour, and the
two random.choice draws. -/
structure SynthInputs where
  envLang : Option String
  hour : Nat
  deviceChoice : Fin 3
  tzChoice : Fin 3
deriving DecidableEq

/-- Device preset list from _get_host_machine_config. -/
def device_list : List String :=
  ["Desktop Chrome", "Desktop Edge", "Desktop Firefox"]

/-- Timezone list from _get_host_machine_config. -/
def tz_list : List String :=
  ["America/New_York", "Europe/London", "Asia/Shanghai"]

/-- Indexing the device list by the random choice. -/
def deviceAt : Fin 3 → String
  | 0 => "Desktop Chrome"
  | 1 => "Desktop Edge"
  | 2 => "Desktop Firefox"

/-- Indexing the timezone list by the random choice. -/
def tzAt : Fin 3 → String
  | 0 => "America/New_York"
  | 1 => "Europe/London"
  | 2 => "Asia/Shanghai"

/-- BrowserManager._get_host_machine_config: synthesize a fresh fingerprint
from the options locale, the host environment and the random draws.  The
`ua` argument is the external playwright devices table restricted to its
user_agent column. -/
def get_host_machine_config (optLocale : Option String) (ua : String → String)
    (inp : SynthInputs) : Fingerprint :=
  let system_locale := pyOrS optLocale (inp.envLang.getD "zh-CN")
  let color_scheme := if 18 ≤ inp.hour ∨ inp.hour ≤ 6 then "dark" else "light"
  let device_name := deviceAt inp.deviceChoice
  { deviceName := device_name
    locale := system_locale
    timezoneId := tzAt inp.tzChoice
    colorScheme := color_scheme
    reducedMotion := "no-preference"
    forcedColors := "none"
    userAgent := ua device_name }

/-- State of a BrowserManager relevant to identity handling: the fingerprint
loaded at startup (if any), the configured locale, the no-save-state flag
and whether a context is open. -/
structure BMState where
  loadedFingerprint : Option Fingerprint
  optionsLocale : Option String
  noSaveState : Bool
  contextOpen : Bool

/-- Fingerprint used to create the session context in launch_browser:
`saved_state.get("fingerprint") or self._get_host_machine_config()`. -/
def bmLaunchFingerprint (st : BMState) (ua : String → String)
    (inp : SynthInputs) : Fingerprint :=
  match st.loadedFingerprint with
  | some fp => fp
  | none => get_host_machine_config st.optionsLocale ua inp

/-- Fingerprint written to the fingerprint file by BrowserManager.close
(none when persistence is skipped).  close invokes
_get_host_machine_config afresh; the loaded fingerprint is not consulted. -/
def bmClosePersistedFingerprint (st : BMState) (ua : String → String)
    (freshInp : SynthInputs) : Option Fingerprint :=
  if st.contextOpen && !st.noSaveState then
    some (get_host_machine_config st.optionsLocale ua freshInp)
  else
    none

/-- BrowserManager.__init__: the state file defaults and the fingerprint
file is derived by str.replace. -/
def bmStateFile (optStateFile : Option String) : String :=
  pyOrS optStateFile "./browser-state.json"

/-- Fingerprint file path: `self.state_file.replace(".json", "-fingerprint.json")`. -/
def bmFingerprintFile (state_file : String) : String :=
  pyReplaceStr state_file ".json" "-fingerprint.json"

/-! Engine layer: types.py, engines/base.py, engines/google.py,
engines/factory.py.  Browser interactions are modelled over an abstract
page and recorded as an explicit effect list. -/

/-- Search result model (types.py SearchResult). -/
structure SearchResult where
  title : String
  link : String
  snippet : String
deriving DecidableEq

/-- Search response model (types.py SearchResponse). -/
structure SearchResponse where
  query : String
  results : List SearchResult
  totalResults : Nat
  searchTime : Nat
  engine : String
deriving DecidableEq

/-- Selector patterns of an engine (base.py SearchEngineSelectors). -/
structure SearchEngineSelectors where
  result_container : String
  title : String
  link : String
  snippet : String
deriving DecidableEq

/-- Custom delay range (base.py CustomDelay). -/
structure CustomDelay where
  min : Nat
  max : Nat
deriving DecidableEq

/-- Engine configuration (base.py SearchEngineConfig). -/
structure SearchEngineConfig where
  name : String
  base_url : String
  search_path : String
  selectors : SearchEngineSelectors
  headers : Option (List (String × String))
  user_agent : Option String
  anti_bot : Option Bool
  custom_delay : Option CustomDelay
deriving DecidableEq

/-- The static Google configuration (google.py GOOGLE_CONFIG). -/
def GOOGLE_CONFIG : SearchEngineConfig :=
  { name := "Google"
    base_url := "https://www.google.com"
    search_path := "/search?q="
    selectors :=
      { result_container := "div[data-sokoban-container]"
        title := "h3"
        link := "a"
        snippet := "div[data-sncf=\x271\x27]" }
    headers := some [("Accept-Language", "zh-CN,zh;q=0.9,en;q=0.8")]
    user_agent := none
    anti_bot := some true
    custom_delay := some { min := 1000, max := 3000 } }

/-- BaseEngine._build_search_url: concatenate base_url, search_path and the
query with spaces replaced by plus signs via str.replace. -/
def build_search_url (cfg : SearchEngineConfig) (query : String) : String :=
  cfg.base_url ++ cfg.search_path ++ pyReplaceStr query " " "+"

/-- Zero-width space U+200B, the character removed by _clean_text. -/
def zwspChar : Char := Char.ofNat 0x200b

/-- BaseEngine._clean_text: strip zero-width spaces, collapse whitespace
runs with split + join, and strip the ends. -/
def clean_text (s : String) : String :=
  if s = "" then ""
  else ⟨pyStrip (joinWords (pySplitAux
          (pyReplaceFuel [zwspChar] [] s.data.length s.data) []))⟩

/-- BaseEngine._create_search_result: normalize all three fields. -/
def create_search_result (title link snippet : String) : SearchResult :=
  { title := clean_text title
    link := clean_text link
    snippet := clean_text snippet }

/-- One anchor element of the rendered page as seen by the extraction
script: the h3 descendant's textContent if present, the href property, and
the snippet node's innerText resolved through the closest container if
present. -/
structure Anchor where
  h3Text : Option String
  href : String
  snippetText : Option String
deriving DecidableEq

/-- Abstract rendered page: whether the reCAPTCHA iframe appears within the
5000 ms probe, whether domcontentloaded is reached within its bound,
whether the result-container selector appears within 15000 ms, whether the
page has a viewport, and the anchors of the document in document order. -/
structure PageModel where
  challengeFound : Bool
  domLoadedInTime : Bool
  containerAppears : Bool
  hasViewport : Bool
  links : List Anchor
deriving DecidableEq

/-- Effects performed against the page or the log, in order. -/
inductive Eff where
  | newPage
  | setHeaders
  | logInfo
  | logWarning
  | logError
  | goto (url : String)
  | waitTimeout
  | waitForSelector (sel : String)
  | waitForLoadState
  | mouseMove
  | scroll
  | evaluate
  | screenshot (path : String)
  | closePage
deriving DecidableEq

/-- Discriminator for screenshot effects. -/
def Eff.isShot : Eff → Bool
  | .screenshot _ => true
  | _ => false

/-- The acceptance test of the extraction script for one anchor:
`h3 && h3.textContent` and
`href && title && !href.startsWith('javascript:') && href.includes('http')`. -/
def anchorAccepted (a : Anchor) : Bool :=
  match a.h3Text with
  | none => false
  | some t =>
    t ≠ "" && a.href ≠ "" &&
    !isPrefixB "javascript:".data a.href.data &&
    containsSub "http".data a.href.data

/-- The record pushed by the extraction script for one accepted anchor:
title and snippet are trimmed with JavaScript trim, the href is kept. -/
def anchorRecord (a : Anchor) : SearchResult :=
  { title := ⟨jsTrim ((a.h3Text.getD "").data)⟩
    link := a.href
    snippet := ⟨jsTrim ((a.snippetText.getD "").data)⟩ }

/-- The extraction loop of the in-page script in _parse_results: walk the
anchors in order, break as soon as the accumulator holds `limit` entries,
push accepted anchors. -/
def extractLoop (limit : Int) : List Anchor → List SearchResult → List SearchResult
  | [], acc => acc.reverse
  | a :: rest, acc =>
    if limit ≤ (acc.length : Int) then acc.reverse
    else if anchorAccepted a then extractLoop limit rest (anchorRecord a :: acc)
    else extractLoop limit rest acc

/-- GoogleEngine._parse_results: wait for domcontentloaded (propagating a
timeout), run the extraction script with `self.options.limit or 10`,
screenshot when nothing was extracted, and clean every field of every
extracted record. -/
def parse_results (optLimit : Option Int) (page : PageModel) :
    Except String (List SearchResult) × List Eff :=
  if !page.domLoadedInTime then
    (Except.error "TimeoutError: wait_for_load_state",
     [Eff.logInfo, Eff.waitForLoadState])
  else
    let limit := pyOrInt optLimit 10
    let extracted := extractLoop limit page.links []
    let effs := [Eff.logInfo, Eff.waitForLoadState, Eff.evaluate, Eff.logInfo]
    let effs :=
      if extracted.isEmpty then
        effs ++ [Eff.logWarning, Eff.screenshot "google-screenshot.png"]
      else effs
    (Except.ok (extracted.map fun r =>
        create_search_result r.title r.link r.snippet), effs)

/-- BaseEngine._handle_anti_bot: when the anti_bot flag is truthy, move the
mouse to a random viewport point (when a viewport exists), scroll, and wait
a random 1000-3000 ms.  Never raises. -/
def base_handle_anti_bot (cfg : SearchEngineConfig) (page : PageModel) : List Eff :=
  match cfg.anti_bot with
  | some true =>
    (if page.hasViewport then [Eff.mouseMove] else []) ++
    [Eff.scroll, Eff.waitTimeout]
  | _ => []

/-- GoogleEngine._handle_anti_bot, embedded with Python try/except
semantics.  The try body either finds the reCAPTCHA frame (warns,
screenshots, raises) or times out waiting for it (raises); in both cases
the enclosing `except Exception` catches the error, logs that no reCAPTCHA
was detected, and falls through to the base humanization. -/
def google_handle_anti_bot (page : PageModel) : Except String Unit × List Eff :=
  let tryBody : Except String Unit × List Eff :=
    if page.challengeFound then
      (Except.error "需要人工干预来解决 reCAPTCHA。",
       [Eff.waitForSelector "iframe[src*=\"recaptcha\"]", Eff.logWarning,
        Eff.screenshot "google-recaptcha.png"])
    else
      (Except.error "TimeoutError: wait_for_selector",
       [Eff.waitForSelector "iframe[src*=\"recaptcha\"]"])
  match tryBody with
  | (Except.ok _, effs) => (Except.ok (), effs)
  | (Except.error _, effs) =>
    (Except.ok (), effs ++ [Eff.logInfo] ++ base_handle_anti_bot GOOGLE_CONFIG page)

/-- BaseEngine._wait_for_page_load: wait for the result-container selector
bounded by 15000 ms; on timeout log a warning and screenshot, continuing
rather than aborting.  (Defined in the source but never invoked by
GoogleEngine.search.) -/
def wait_for_page_load (cfg : SearchEngineConfig) (page : PageModel) : List Eff :=
  if page.containerAppears then
    [Eff.waitForSelector cfg.selectors.result_container]
  else
    [Eff.waitForSelector cfg.selectors.result_container, Eff.logWarning,
     Eff.screenshot "google-debug.png"]

/-- BaseEngine._navigate_to_search_page: log, goto the built URL, then wait
a random custom delay when configured. -/
def navigate_to_search_page (cfg : SearchEngineConfig) (query : String) : List Eff :=
  [Eff.logInfo, Eff.goto (build_search_url cfg query)] ++
  (match cfg.custom_delay with
   | some _ => [Eff.waitTimeout]
   | none => [])

/-- BaseEngine._setup_page_headers. -/
def setup_page_headers (cfg : SearchEngineConfig) : List Eff :=
  match cfg.headers with
  | some _ => [Eff.setHeaders]
  | none => []

/-- GoogleEngine.search: open a page, set headers, navigate, run the
anti-bot handler, parse results and assemble the response; on any error
log, screenshot and re-raise; always close the page.  The elapsed
wall-clock duration is supplied as an external input. -/
def google_search (optLimit : Option Int) (page : PageModel) (query : String)
    (elapsedMs : Nat) : Except String SearchResponse × List Eff :=
  let pre := [Eff.newPage] ++ setup_page_headers GOOGLE_CONFIG ++
    navigate_to_search_page GOOGLE_CONFIG query
  match google_handle_anti_bot page with
  | (Except.error e, abEffs) =>
    (Except.error e,
     pre ++ abEffs ++
       [Eff.logError, Eff.screenshot "google-error-screenshot.png", Eff.closePage])
  | (Except.ok _, abEffs) =>
    match parse_results optLimit page with
    | (Except.error e, pEffs) =>
      (Except.error e,
       pre ++ abEffs ++ pEffs ++
         [Eff.logError, Eff.screenshot "google-error-screenshot.png", Eff.closePage])
    | (Except.ok results, pEffs) =>
      (Except.ok
        { query := query
          results := results
          totalResults := results.length
          searchTime := elapsedMs
          engine := GOOGLE_CONFIG.name },
       pre ++ abEffs ++ pEffs ++ [Eff.logInfo, Eff.closePage])

/-- Projection: the result list carried by a parse or search outcome. -/
def okResults : Except String (List SearchResult) × List Eff → List SearchResult
  | (Except.ok l, _) => l
  | (Except.error _, _) => []

/-- Projection: number of extracted results of a parse outcome. -/
def parseCount (r : Except String (List SearchResult) × List Eff) : Nat :=
  (okResults r).length

/-- Projection: whether a search outcome is a success. -/
def searchOk : Except String SearchResponse × List Eff → Bool
  | (Except.ok _, _) => true
  | (Except.error _, _) => false

/-- Projection: the results of a successful search outcome. -/
def searchResults : Except String SearchResponse × List Eff → List SearchResult
  | (Except.ok r, _) => r.results
  | (Except.error _, _) => []

/-! Engine registry (engines/factory.py) and orchestrator (main.py). -/

/-- Engine constructors registered in ENGINE_MAP. -/
inductive EngineCtor where
  | google
deriving DecidableEq

/-- The static name-to-constructor mapping of factory.py. -/
def ENGINE_MAP : List (String × EngineCtor) := [("google", EngineCtor.google)]

/-- Dictionary lookup ENGINE_MAP.get(key). -/
def engineMapGet (key : String) : Option EngineCtor :=
  (ENGINE_MAP.find? fun p => p.1 == key).map Prod.snd

/-- Registry resolution as performed by create_engine:
`ENGINE_MAP.get(engine_name.lower())`. -/
def resolve_engine (engine_name : String) : Option EngineCtor :=
  engineMapGet (pyLower engine_name)

/-- factory.py create_engine: resolve case-insensitively, raising a
ValueError naming the unsupported engine when absent. -/
def create_engine (engine_name : String) : Except String EngineCtor :=
  match resolve_engine engine_name with
  | some ctor => Except.ok ctor
  | none => Except.error ("不支持的搜索引擎: " ++ engine_name)

/-- Effects of the orchestrator in main.py, in order. -/
inductive CliEff where
  | logInfo
  | launchBrowser
  | searchOp
  | echoJson
  | logError (msg : String)
  | persistState
  | closeBrowser
deriving DecidableEq

/-- Body of the try block of main.py's main(): log, launch the browser,
create the engine (which may raise), run the search (whose outcome is an
external input here), echo the response.  Returns the Python outcome of the
block alongside the effects performed before it completed or raised. -/
def cliBody (engineName : String) (searchOutcome : SearchResponse ⊕ String) :
    Except String Unit × List CliEff :=
  let effs := [CliEff.logInfo, CliEff.launchBrowser]
  match create_engine engineName with
  | Except.error e => (Except.error e, effs)
  | Except.ok _ =>
    match searchOutcome with
    | Sum.inl _ => (Except.ok (), effs ++ [CliEff.searchOp, CliEff.echoJson])
    | Sum.inr e => (Except.error e, effs ++ [CliEff.searchOp])

/-- The except clause of main.py: log the error and complete normally (the
re-raise is commented out in the source). -/
def cliHandler (e : String) : Except String Unit × List CliEff :=
  (Except.ok (), [CliEff.logError e])

/-- The finally clause of main.py: BrowserManager.close, which persists
state unless --no-save-state was given and then closes the browser. -/
def cliFinally (noSaveState : Bool) : List CliEff :=
  (if noSaveState then [] else [CliEff.persistState]) ++ [CliEff.closeBrowser]

/-- Python try/except/finally semantics for a block whose handler catches
every exception: when the body raises, the handler runs; when the handler
completes normally the exception is swallowed; the finally clause always
runs; the first component is the error that escapes the whole statement,
if any. -/
def pyTryExceptFinally (body : Except String Unit × List CliEff)
    (handler : String → Except String Unit × List CliEff)
    (fin : List CliEff) : Option String × List CliEff :=
  match body with
  | (Except.ok _, effs) => (none, effs ++ fin)
  | (Except.error e, effs) =>
    match handler e with
    | (Except.ok _, heffs) => (none, effs ++ heffs ++ fin)
    | (Except.error e2, heffs) => (some e2, effs ++ heffs ++ fin)

/-- main.py main(): the whole orchestrated run for one query.  The first
component is the error surfaced to the caller of asyncio.run, if any. -/
def cliMain (engineName : String) (noSaveState : Bool)
    (searchOutcome : SearchResponse ⊕ String) : Option String × List CliEff :=
  pyTryExceptFinally (cliBody engineName searchOutcome) cliHandler
    (cliFinally noSaveState)

/-! Concrete inputs used by counterexamples and witnesses. -/

/-- A user-agent table standing in for the external playwright devices data. -/
def uaOf : String → String := fun d => "test-agent for " ++ d

/-- A fingerprint as it could have been loaded from the fingerprint file. -/
def exLoadedFp : Fingerprint :=
  { deviceName := "Desktop Chrome"
    locale := "en-US"
    timezoneId := "Europe/London"
    colorScheme := "light"
    reducedMotion := "no-preference"
    forcedColors := "none"
    userAgent := "loaded-agent" }

/-- A BrowserManager state holding that loaded fingerprint, persistence on. -/
def exBMState : BMState :=
  { loadedFingerprint := some exLoadedFp
    optionsLocale := none
    noSaveState := false
    contextOpen := true }

/-- Fresh synthesis inputs drawing the Desktop Edge device at 20:00. -/
def exInputs : SynthInputs :=
  { envLang := none, hour := 20, deviceChoice := 1, tzChoice := 0 }

/-- An anchor that the extraction script accepts. -/
def goodAnchor : Anchor :=
  { h3Text := some "Example Title"
    href := "https://example.com/a"
    snippetText := some "An example snippet" }

/-- A second accepted anchor. -/
def goodAnchor2 : Anchor :=
  { h3Text := some "Second Title"
    href := "https://example.org/b"
    snippetText := none }

/-- A third accepted anchor. -/
def goodAnchor3 : Anchor :=
  { h3Text := some "Third Title"
    href := "http://example.net/c"
    snippetText := some "Snippet three" }

/-- A quiet rendered page holding one extractable result. -/
def pageOneLink : PageModel :=
  { challengeFound := false
    domLoadedInTime := true
    containerAppears := true
    hasViewport := true
    links := [goodAnchor] }

/-- A page with three extractable results. -/
def pageThreeLinks : PageModel :=
  { challengeFound := false
    domLoadedInTime := true
    containerAppears := true
    hasViewport := true
    links := [goodAnchor, goodAnchor2, goodAnchor3] }

/-- A page on which the challenge frame is found within the probe. -/
def challengePage : PageModel :=
  { challengeFound := true
    domLoadedInTime := true
    containerAppears := false
    hasViewport := true
    links := [goodAnchor] }

/-- A page whose result container never appears within its bound. -/
def noContainerPage : PageModel :=
  { challengeFound := false
    domLoadedInTime := true
    containerAppears := false
    hasViewport := true
    links := [goodAnchor] }

/-- Space-to-plus substitution: the per-character effect of the query
encoding step of _build_search_url. -/
def plusForSpace (c : Char) : Char := if c = ' ' then '+' else c

/-! Normalization predicate for claim C9. -/

/-- No two adjacent characters are both whitespace: every internal
whitespace run has length one. -/
def noSpaceRun (l : List Char) : Prop :=
  List.Chain' (fun a b => ¬ (pyIsSpace a = true ∧ pyIsSpace b = true)) l

/-- A string is normalized when it holds no zero-width space, has no
leading or trailing whitespace, and every internal whitespace run is a
single character. -/
def textNormalized (s : String) : Prop :=
  (∀ c ∈ s.data, c ≠ zwspChar) ∧
  (∀ c ∈ s.data.head?, pyIsSpace c = false) ∧
  (∀ c ∈ s.data.getLast?, pyIsSpace c = false) ∧
  noSpaceRun s.data

/-! Theorems.  Helper lemmas come first, then one theorem per claim with
its witness or counterexample. -/

theorem pyReplaceFuel_single_map (z r : Char) :
    ∀ (l : List Char) (fuel : Nat), l.length ≤ fuel →
    pyReplaceFuel [z] [r] fuel l = l.map fun c => if c = z then r else c := by
  intro l
  induction l with
  | nil => intro fuel _; cases fuel <;> rfl
  | cons c rest ih =>
    intro fuel hf
    cases fuel with
    | zero => simp at hf
    | succ f =>
      have hrest : rest.length ≤ f := by simpa using hf
      by_cases hc : c = z
      · subst hc
        have hcond : (!([c] : List Char).isEmpty && isPrefixB [c] (c :: rest)) = true := by
          simp [isPrefixB]
        simp only [pyReplaceFuel, hcond, if_true]
        simp [ih f hrest]
      · have hcond : (!([z] : List Char).isEmpty && isPrefixB [z] (c :: rest)) = false := by
          simp [isPrefixB, Ne.symm hc]
        simp only [pyReplaceFuel, hcond, Bool.false_eq_true, if_false]
        simp [ih f hrest, hc]

theorem pyReplaceFuel_id_of_not_contains (pat rep : List Char) :
    ∀ (fuel : Nat) (l : List Char), containsSub pat l = false →
    pyReplaceFuel pat rep fuel l = l := by
  intro fuel
  induction fuel with
  | zero => intro l _; rfl
  | succ f ih =>
    intro l h
    cases l with
    | nil => rfl
    | cons c rest =>
      simp only [containsSub, Bool.or_eq_false_iff] at h
      have hcond : (!pat.isEmpty && isPrefixB pat (c :: rest)) = false := by
        simp [h.1]
      simp only [pyReplaceFuel, hcond, Bool.false_eq_true, if_false]
      rw [ih rest h.2]

/-- Claim C8: for every query string, the constructed search URL is exactly
baseUrl ++ searchPath ++ the query with each space character turned into a
plus sign and every other character left unchanged (plusForSpace fixes all
non-space characters by definition); no other transformation is applied. -/
theorem c8_build_search_url_concat :
    ∀ query : String,
    build_search_url GOOGLE_CONFIG query =
      GOOGLE_CONFIG.base_url ++ GOOGLE_CONFIG.search_path ++
        ⟨query.data.map plusForSpace⟩ := by
  intro query
  unfold build_search_url pyReplaceStr
  have hpat : (" " : String).data = [' '] := rfl
  have hrep : ("+" : String).data = ['+'] := rfl
  rw [hpat, hrep, pyReplaceFuel_single_map ' ' '+' query.data query.data.length le_rfl]
  rfl

/-- Claim C10: the fingerprint file path is the state-file path with every
occurrence of ".json" replaced by "-fingerprint.json"; when the state-file
path has no ".json" substring the fingerprint path equals the state path
itself (so both blobs would target the same file). -/
theorem c10_fingerprint_path :
    bmFingerprintFile "./browser-state.json" = "./browser-state-fingerprint.json" ∧
    ∀ path : String, containsSub (".json" : String).data path.data = false →
      bmFingerprintFile path = path := by
  refine ⟨by decide, fun path h => ?_⟩
  unfold bmFingerprintFile pyReplaceStr
  have := pyReplaceFuel_id_of_not_contains (".json" : String).data
    ("-fingerprint.json" : String).data path.data.length path.data h
  rw [this]

/-- Witness for C10 at a path without any ".json" substring. -/
theorem c10_witness :
    containsSub (".json" : String).data ("state-file" : String).data = false ∧
    bmFingerprintFile "state-file" = "state-file" :=
  ⟨by decide, c10_fingerprint_path.2 "state-file" (by decide)⟩

/-- Claim C7: for every local hour h in 0..23, the synthesized fingerprint
has colorScheme "dark" exactly when h lies in [18,23] or [0,6], and
otherwise "light" (the two values being distinct). -/
theorem c7_colorScheme_dark_iff :
    ∀ (loc : Option String) (ua : String → String) (inp : SynthInputs),
    inp.hour ≤ 23 →
    (((get_host_machine_config loc ua inp).colorScheme = "dark" ↔
        ((18 ≤ inp.hour ∧ inp.hour ≤ 23) ∨ inp.hour ≤ 6)) ∧
      ((get_host_machine_config loc ua inp).colorScheme = "light" ↔
        ¬ ((18 ≤ inp.hour ∧ inp.hour ≤ 23) ∨ inp.hour ≤ 6))) := by
  intro loc ua inp h
  have hcs : (get_host_machine_config loc ua inp).colorScheme =
      if 18 ≤ inp.hour ∨ inp.hour ≤ 6 then "dark" else "light" := rfl
  by_cases hc : 18 ≤ inp.hour ∨ inp.hour ≤ 6
  · rw [hcs, if_pos hc]
    have hin : (18 ≤ inp.hour ∧ inp.hour ≤ 23) ∨ inp.hour ≤ 6 := by
      rcases hc with h1 | h2
      · exact Or.inl ⟨h1, h⟩
      · exact Or.inr h2
    exact ⟨iff_of_true rfl hin, iff_of_false (by decide) (not_not_intro hin)⟩
  · rw [hcs, if_neg hc]
    have hout : ¬ ((18 ≤ inp.hour ∧ inp.hour ≤ 23) ∨ inp.hour ≤ 6) := by
      intro hr
      apply hc
      rcases hr with ⟨h1, _⟩ | h2
      · exact Or.inl h1
      · exact Or.inr h2
    exact ⟨iff_of_false (by decide) hout, iff_of_true rfl hout⟩

/-- Witness for C7 at hour 20 (evening: dark). -/
theorem c7_witness :
    (get_host_machine_config none uaOf exInputs).colorScheme = "dark" :=
  ((c7_colorScheme_dark_iff none uaOf exInputs (by decide)).1).mpr
    (Or.inl (by decide))

/-- Claim C5: whenever persistence runs at shutdown, the fingerprint written
to the fingerprint file is a fresh invocation of the synthesis algorithm on
the shutdown-time inputs, and it is independent of whatever fingerprint was
loaded at startup; concretely, a state that loaded a Desktop Chrome
fingerprint (used for the session context) persists a Desktop Edge
fingerprint when the fresh draw picks device 1, so deviceName may drift. -/
theorem c5_close_persists_fresh_fingerprint :
    ∀ (st : BMState) (fp : Option Fingerprint) (ua : String → String)
      (inp : SynthInputs),
    st.contextOpen = true → st.noSaveState = false →
    (bmClosePersistedFingerprint st ua inp =
        some (get_host_machine_config st.optionsLocale ua inp) ∧
      bmClosePersistedFingerprint { st with loadedFingerprint := fp } ua inp =
        bmClosePersistedFingerprint st ua inp) ∧
    ((bmLaunchFingerprint exBMState uaOf exInputs).deviceName = "Desktop Chrome" ∧
      (bmClosePersistedFingerprint exBMState uaOf exInputs).map
          Fingerprint.deviceName = some "Desktop Edge" ∧
      ("Desktop Chrome" : String) ≠ "Desktop Edge") := by
  intro st fp ua inp h1 h2
  refine ⟨⟨?_, ?_⟩, by decide, by decide, by decide⟩
  · simp [bmClosePersistedFingerprint, h1, h2]
  · simp [bmClosePersistedFingerprint, h1, h2]

/-- Witness for C5 at the concrete state and inputs. -/
theorem c5_witness :
    bmClosePersistedFingerprint exBMState uaOf exInputs =
      some (get_host_machine_config none uaOf exInputs) :=
  (c5_close_persists_fresh_fingerprint exBMState none uaOf exInputs
    rfl rfl).1.1

/-- Claim C3 counterexample: with the reference engine, persistence on, and
a search that raises "boom", the orchestrator surfaces nothing to its
caller (the error is swallowed after being logged), even though teardown
did run — refuting the claim that the error is propagated after teardown. -/
theorem c3_counterexample :
    (cliMain "google" false (Sum.inr "boom")).1 = none ∧
    CliEff.closeBrowser ∈ (cliMain "google" false (Sum.inr "boom")).2 := by
  decide

/-- Claim C3 (amended): for every error raised inside the Extractor's
search, the Orchestrator performs no retry (exactly one search operation
appears in the trace), invokes Driver teardown (persistence exactly when
not disabled, and the browser close always), logs the error, but swallows
it rather than surfacing it to the caller. -/
theorem c3_error_swallowed_after_teardown :
    ∀ (e : String) (nss : Bool),
    (cliMain "google" nss (Sum.inr e)).1 = none ∧
    CliEff.logError e ∈ (cliMain "google" nss (Sum.inr e)).2 ∧
    CliEff.closeBrowser ∈ (cliMain "google" nss (Sum.inr e)).2 ∧
    (cliMain "google" nss (Sum.inr e)).2.count CliEff.searchOp = 1 ∧
    (CliEff.persistState ∈ (cliMain "google" nss (Sum.inr e)).2 ↔ nss = false) := by
  intro e nss
  have htrace : (cliMain "google" nss (Sum.inr e)).2 =
      [CliEff.logInfo, CliEff.launchBrowser, CliEff.searchOp, CliEff.logError e] ++
        (if nss then [] else [CliEff.persistState]) ++ [CliEff.closeBrowser] := by
    cases nss <;> rfl
  have hres : (cliMain "google" nss (Sum.inr e)).1 = none := by
    cases nss <;> rfl
  refine ⟨hres, ?_, ?_, ?_, ?_⟩ <;> rw [htrace] <;> cases nss <;>
    simp [List.count_cons]

/-- Claim C6 counterexample: resolving the unsupported engine "bing" fails
with the configuration error naming it, yet in the orchestrated run the
browser has already been launched when that failure occurs — refuting the
claim that no browser is launched before the check in the failing case. -/
theorem c6_counterexample :
    create_engine "bing" = Except.error "不支持的搜索引擎: bing" ∧
    CliEff.launchBrowser ∈ (cliMain "bing" false (Sum.inr "irrelevant")).2 :=
  ⟨rfl, by decide⟩

/-- Claim C6 (amended): registry resolution is case-insensitive (it factors
through the lowercased name), fails with a configuration error naming the
unsupported engine exactly when the lowercased name is absent from the
static mapping, but the orchestrator launches the browser before the
resolution step, so in the failing case a browser has been launched (and is
closed by the guaranteed teardown); unsupported names are ordinarily
rejected earlier by the excluded CLI argument-parsing layer. -/
theorem c6_resolution_case_insensitive_after_launch :
    ∀ (n m : String) (nss : Bool) (out : SearchResponse ⊕ String),
    (pyLower n = pyLower m → resolve_engine n = resolve_engine m) ∧
    (resolve_engine n = none ↔ engineMapGet (pyLower n) = none) ∧
    (resolve_engine n = none →
      create_engine n = Except.error ("不支持的搜索引擎: " ++ n) ∧
      CliEff.launchBrowser ∈ (cliMain n nss out).2 ∧
      CliEff.closeBrowser ∈ (cliMain n nss out).2) := by
  intro n m nss out
  refine ⟨fun h => ?_, Iff.rfl, fun h => ?_⟩
  · unfold resolve_engine
    rw [h]
  · have hce : create_engine n = Except.error ("不支持的搜索引擎: " ++ n) := by
      unfold create_engine
      rw [h]
    refine ⟨hce, ?_, ?_⟩ <;>
      · cases out <;> cases nss <;>
          simp [cliMain, pyTryExceptFinally, cliBody, cliHandler, cliFinally, hce]

/-- Witness for C6: "Google" and "GOOGLE" resolve identically, and for the
unsupported "duckduckgo" the orchestrated trace still launched a browser. -/
theorem c6_witness :
    resolve_engine "Google" = resolve_engine "GOOGLE" ∧
    CliEff.launchBrowser ∈ (cliMain "duckduckgo" true (Sum.inr "e")).2 :=
  ⟨(c6_resolution_case_insensitive_after_launch "Google" "GOOGLE" true
      (Sum.inr "e")).1 (by decide),
   ((c6_resolution_case_insensitive_after_launch "duckduckgo" "x" true
      (Sum.inr "e")).2.2 (by decide)).2.1⟩

theorem extractLoop_length_le (limit : Int) :
    ∀ (links : List Anchor) (acc : List SearchResult),
    (acc.length : Int) ≤ limit →
    ((extractLoop limit links acc).length : Int) ≤ limit := by
  intro links
  induction links with
  | nil =>
    intro acc h
    simp only [extractLoop, List.length_reverse]
    exact h
  | cons a rest ih =>
    intro acc h
    simp only [extractLoop]
    by_cases hl : limit ≤ (acc.length : Int)
    · rw [if_pos hl]
      simp only [List.length_reverse]
      exact h
    · rw [if_neg hl]
      by_cases ha : anchorAccepted a = true
      · rw [if_pos ha]
        apply ih
        have : (acc.length : Int) < limit := lt_of_not_le hl
        simp only [List.length_cons]
        push_cast
        omega
      · rw [if_neg ha]
        exact ih acc h

/-- Claim C2 counterexample: with limit 0 supplied in the options and a
page holding one extractable link, the extraction routine returns one
result, not at most zero — because `self.options.limit or 10` treats the
falsy 0 as absent and uses the default 10. -/
theorem c2_counterexample :
    ¬ ((parseCount (parse_results (some 0) pageOneLink) : Int) ≤ 0) := by
  decide

/-- Claim C2 (amended): for every limit L ≥ 1 supplied in the run options
and every rendered page, the extraction routine returns at most L results;
a supplied limit of 0 is replaced by the default 10 by Python's falsiness
rules, so the bound fails only at L = 0. -/
theorem c2_parse_results_bounded :
    ∀ (L : Int) (page : PageModel), 1 ≤ L →
    (parseCount (parse_results (some L) page) : Int) ≤ L := by
  intro L page hL
  have hOr : pyOrInt (some L) 10 = L := by
    rw [show pyOrInt (some L) 10 = if L = 0 then 10 else L from rfl,
      if_neg (by omega)]
  cases hd : page.domLoadedInTime with
  | false =>
    have hzero : parseCount (parse_results (some L) page) = 0 := by
      simp [parse_results, hd, parseCount, okResults]
    rw [hzero]
    simp only [Nat.cast_zero]
    omega
  | true =>
    have hcount : parseCount (parse_results (some L) page) =
        (extractLoop L page.links []).length := by
      simp [parse_results, hd, parseCount, okResults, hOr]
    rw [hcount]
    refine extractLoop_length_le L page.links [] ?_
    simp only [List.length_nil, Nat.cast_zero]
    omega

/-- Witness for C2 at limit 2 on a page with three extractable links. -/
theorem c2_witness :
    (parseCount (parse_results (some 2) pageThreeLinks) : Int) ≤ 2 :=
  c2_parse_results_bounded 2 pageThreeLinks (by decide)

/-- Claim C1 evaluated at the failing input: on a page whose challenge
frame is found within the probe, the diagnostic snapshot is captured, yet
the search returns successfully, the extraction script still runs, and one
result is extracted — the raised challenge error is caught by the
handler's own except clause instead of aborting the run. -/
theorem c1_challenge_swallowed_run_extracts :
    searchOk (google_search (some 10) challengePage "openai gpt" 5) = true ∧
    Eff.screenshot "google-recaptcha.png" ∈
      (google_search (some 10) challengePage "openai gpt" 5).2 ∧
    Eff.logWarning ∈ (google_search (some 10) challengePage "openai gpt" 5).2 ∧
    Eff.evaluate ∈ (google_search (some 10) challengePage "openai gpt" 5).2 ∧
    (searchResults (google_search (some 10) challengePage "openai gpt" 5)).length
      = 1 := by
  decide

/-- Claim C4 counterexample: on a run where the result container never
appears (and the DOM loads), the search completes successfully but its
trace contains no screenshot at all and never waits on the result-container
selector — refuting the claim that the bounded container wait (with its
warning and diagnostic snapshot) is part of the executed search sequence. -/
theorem c4_counterexample :
    searchOk (google_search (some 10) noContainerPage "q" 3) = true ∧
    ((google_search (some 10) noContainerPage "q" 3).2.all
      fun e => !e.isShot) = true ∧
    Eff.waitForSelector GOOGLE_CONFIG.selectors.result_container ∉
      (google_search (some 10) noContainerPage "q" 3).2 := by
  decide

/-- Claim C4 (amended): for every run in which the result-container
selector never appears within its bound (and the DOM load wait succeeds),
the search completes without raising and returns exactly what the
extraction step finds, possibly zero results; however the 15000 ms bounded
wait with catch-and-continue exists only as the uninvoked helper
_wait_for_page_load (which does log, screenshot and continue on timeout) —
GoogleEngine.search never executes it, so no container wait appears in the
run's trace. -/
theorem c4_container_wait_not_in_search :
    ∀ (L : Option Int) (page : PageModel) (q : String) (t : Nat),
    page.containerAppears = false → page.domLoadedInTime = true →
    searchOk (google_search L page q t) = true ∧
    searchResults (google_search L page q t) = okResults (parse_results L page) ∧
    Eff.waitForSelector GOOGLE_CONFIG.selectors.result_container ∉
      (google_search L page q t).2 ∧
    wait_for_page_load GOOGLE_CONFIG page =
      [Eff.waitForSelector GOOGLE_CONFIG.selectors.result_container,
       Eff.logWarning, Eff.screenshot "google-debug.png"] := by
  intro L page q t hc hd
  refine ⟨?_, ?_, ?_, ?_⟩
  · cases hcf : page.challengeFound <;>
      simp [google_search, google_handle_anti_bot, parse_results, hcf, hd,
        searchOk]
  · cases hcf : page.challengeFound <;>
      simp [google_search, google_handle_anti_bot, parse_results, hcf, hd,
        searchResults, okResults]
  · cases hcf : page.challengeFound <;> cases hv : page.hasViewport <;>
      simp [google_search, google_handle_anti_bot, base_handle_anti_bot,
        parse_results, hcf, hd, hv, setup_page_headers,
        navigate_to_search_page, GOOGLE_CONFIG] <;>
      split <;> simp
  · simp [wait_for_page_load, hc]

/-- Witness for C4 at the concrete quiet page without a container. -/
theorem c4_witness :
    searchOk (google_search (some 10) noContainerPage "q" 3) = true ∧
    Eff.waitForSelector GOOGLE_CONFIG.selectors.result_container ∉
      (google_search (some 10) noContainerPage "q" 3).2 :=
  ⟨(c4_container_wait_not_in_search (some 10) noContainerPage "q" 3 rfl rfl).1,
   (c4_container_wait_not_in_search (some 10) noContainerPage "q" 3 rfl rfl).2.2.1⟩

theorem mem_of_headQ {l : List Char} {c : Char} (h : c ∈ l.head?) : c ∈ l := by
  cases l with
  | nil => cases h
  | cons a t =>
    have : a = c := by simpa using h
    exact this ▸ List.mem_cons_self a t

theorem mem_of_getLastQ {l : List Char} {c : Char} (h : c ∈ l.getLast?) : c ∈ l := by
  rcases List.mem_getLast?_eq_getLast h with ⟨hne, rfl⟩
  exact List.getLast_mem hne

theorem pySplitAux_words :
    ∀ (l acc : List Char), (∀ c ∈ acc, pyIsSpace c = false) →
    ∀ w ∈ pySplitAux l acc,
      w ≠ [] ∧ ∀ c ∈ w, pyIsSpace c = false ∧ (c ∈ l ∨ c ∈ acc) := by
  intro l
  induction l with
  | nil =>
    intro acc hacc w hw
    cases acc with
    | nil => cases hw
    | cons a acc' =>
      simp only [pySplitAux, List.mem_singleton] at hw
      subst hw
      refine ⟨by simp, fun c hc => ?_⟩
      rw [List.mem_reverse] at hc
      exact ⟨hacc c hc, Or.inr hc⟩
  | cons x rest ih =>
    intro acc hacc w hw
    by_cases hx : pyIsSpace x = true
    · cases acc with
      | nil =>
        rw [show pySplitAux (x :: rest) [] = pySplitAux rest [] by
              simp [pySplitAux, hx]] at hw
        obtain ⟨hne, hc⟩ := ih [] (by simp) w hw
        refine ⟨hne, fun c hc' => ?_⟩
        obtain ⟨hs, hm | hm⟩ := hc c hc'
        · exact ⟨hs, Or.inl (List.mem_cons_of_mem x hm)⟩
        · cases hm
      | cons a acc' =>
        rw [show pySplitAux (x :: rest) (a :: acc') =
              (a :: acc').reverse :: pySplitAux rest [] by
              simp [pySplitAux, hx]] at hw
        rcases List.mem_cons.1 hw with hw | hw
        · subst hw
          refine ⟨by simp, fun c hc => ?_⟩
          rw [List.mem_reverse] at hc
          exact ⟨hacc c hc, Or.inr hc⟩
        · obtain ⟨hne, hc⟩ := ih [] (by simp) w hw
          refine ⟨hne, fun c hc' => ?_⟩
          obtain ⟨hs, hm | hm⟩ := hc c hc'
          · exact ⟨hs, Or.inl (List.mem_cons_of_mem x hm)⟩
          · cases hm
    · rw [show pySplitAux (x :: rest) acc = pySplitAux rest (x :: acc) by
            simp [pySplitAux, hx]] at hw
      have hacc' : ∀ c ∈ x :: acc, pyIsSpace c = false := by
        intro c hc
        rcases List.mem_cons.1 hc with rfl | hc
        · simpa using hx
        · exact hacc c hc
      obtain ⟨hne, hc⟩ := ih (x :: acc) hacc' w hw
      refine ⟨hne, fun c hc' => ?_⟩
      obtain ⟨hs, hm | hm⟩ := hc c hc'
      · exact ⟨hs, Or.inl (List.mem_cons_of_mem x hm)⟩
      · rcases List.mem_cons.1 hm with rfl | hm
        · exact ⟨hs, Or.inl (List.mem_cons_self c rest)⟩
        · exact ⟨hs, Or.inr hm⟩

theorem joinWords_headQ (w : List Char) (ws : List (List Char)) (hw : w ≠ []) :
    (joinWords (w :: ws)).head? = w.head? := by
  cases ws with
  | nil => rfl
  | cons x ws' =>
    cases w with
    | nil => exact absurd rfl hw
    | cons a w' => rfl

theorem joinWords_ne_nil (w : List Char) (ws : List (List Char)) (hw : w ≠ []) :
    joinWords (w :: ws) ≠ [] := by
  intro hnil
  have h1 := joinWords_headQ w ws hw
  rw [hnil] at h1
  cases w with
  | nil => exact absurd rfl hw
  | cons a w' => cases h1

theorem joinWords_mem :
    ∀ (ws : List (List Char)) (c : Char), c ∈ joinWords ws →
    c = ' ' ∨ ∃ w, w ∈ ws ∧ c ∈ w := by
  intro ws
  induction ws with
  | nil => intro c hc; cases hc
  | cons w ws' ih =>
    intro c hc
    cases ws' with
    | nil =>
      exact Or.inr ⟨w, List.mem_singleton_self w, hc⟩
    | cons x ws'' =>
      rw [show joinWords (w :: x :: ws'') = w ++ ' ' :: joinWords (x :: ws'')
            from rfl] at hc
      rcases List.mem_append.1 hc with hc | hc
      · exact Or.inr ⟨w, List.mem_cons_self w _, hc⟩
      · rcases List.mem_cons.1 hc with rfl | hc
        · exact Or.inl rfl
        · rcases ih c hc with h | ⟨w', hw', hc'⟩
          · exact Or.inl h
          · exact Or.inr ⟨w', List.mem_cons_of_mem w hw', hc'⟩

theorem joinWords_last_nonspace :
    ∀ (ws : List (List Char)),
    (∀ w ∈ ws, w ≠ [] ∧ ∀ c ∈ w, pyIsSpace c = false) →
    ∀ c ∈ (joinWords ws).getLast?, pyIsSpace c = false := by
  intro ws
  induction ws with
  | nil => intro _ c hc; cases hc
  | cons w ws' ih =>
    intro hgood c hc
    cases ws' with
    | nil =>
      exact (hgood w (List.mem_singleton_self w)).2 c (mem_of_getLastQ hc)
    | cons x ws'' =>
      rw [show joinWords (w :: x :: ws'') = w ++ ' ' :: joinWords (x :: ws'')
            from rfl, List.getLast?_append_cons] at hc
      have hx := hgood x (List.mem_cons_of_mem w (List.mem_cons_self x ws''))
      have hJ := joinWords_ne_nil x ws'' hx.1
      cases hJmatch : joinWords (x :: ws'') with
      | nil => exact absurd hJmatch hJ
      | cons b J' =>
        rw [hJmatch, List.getLast?_cons_cons] at hc
        apply ih (fun w' hw' => hgood w' (List.mem_cons_of_mem w hw')) c
        rw [hJmatch]
        exact hc

theorem noSpaceRun_of_all_nonspace :
    ∀ (l : List Char), (∀ c ∈ l, pyIsSpace c = false) → noSpaceRun l := by
  intro l
  induction l with
  | nil => intro _; exact List.chain'_nil
  | cons a t ih =>
    intro h
    cases t with
    | nil => exact List.chain'_singleton a
    | cons b t' =>
      rw [noSpaceRun, List.chain'_cons]
      refine ⟨fun hab => ?_, ih fun c hc => h c (List.mem_cons_of_mem a hc)⟩
      rw [h a (List.mem_cons_self a _)] at hab
      exact Bool.false_ne_true hab.1

theorem joinWords_noSpaceRun :
    ∀ (ws : List (List Char)),
    (∀ w ∈ ws, w ≠ [] ∧ ∀ c ∈ w, pyIsSpace c = false) →
    noSpaceRun (joinWords ws) := by
  intro ws
  induction ws with
  | nil => intro _; exact List.chain'_nil
  | cons w ws' ih =>
    intro hgood
    cases ws' with
    | nil =>
      exact noSpaceRun_of_all_nonspace w
        (hgood w (List.mem_singleton_self w)).2
    | cons x ws'' =>
      have hw := hgood w (List.mem_cons_self w _)
      have hrest : ∀ w' ∈ x :: ws'', w' ≠ [] ∧ ∀ c ∈ w', pyIsSpace c = false :=
        fun w' hw' => hgood w' (List.mem_cons_of_mem w hw')
      have hx := hrest x (List.mem_cons_self x ws'')
      rw [show joinWords (w :: x :: ws'') = w ++ ' ' :: joinWords (x :: ws'')
            from rfl]
      rw [noSpaceRun, List.chain'_append]
      refine ⟨noSpaceRun_of_all_nonspace w hw.2, ?_, ?_⟩
      · rw [List.chain'_cons']
        refine ⟨fun y hy => fun hbad => ?_, ih hrest⟩
        have hyw : y ∈ joinWords (x :: ws'') := by
          apply mem_of_headQ hy
        have : (joinWords (x :: ws'')).head? = x.head? :=
          joinWords_headQ x ws'' hx.1
        rw [this] at hy
        have hyx : y ∈ x := mem_of_headQ hy
        rw [hx.2 y hyx] at hbad
        exact Bool.false_ne_true hbad.2
      · intro y hy z hz hbad
        have hyw : y ∈ w := mem_of_getLastQ hy
        rw [hw.2 y hyw] at hbad
        exact Bool.false_ne_true hbad.1

theorem dropWhile_eq_self_of_headQ (p : Char → Bool) (l : List Char)
    (h : ∀ c ∈ l.head?, p c = false) : l.dropWhile p = l := by
  cases l with
  | nil => rfl
  | cons a t =>
    have ha : p a = false := h a rfl
    simp [List.dropWhile_cons, ha]

theorem pyStrip_eq_self (l : List Char)
    (hh : ∀ c ∈ l.head?, pyIsSpace c = false)
    (hl : ∀ c ∈ l.getLast?, pyIsSpace c = false) : pyStrip l = l := by
  unfold pyStrip
  rw [dropWhile_eq_self_of_headQ _ l hh]
  rw [dropWhile_eq_self_of_headQ _ l.reverse
      (fun c hc => hl c (by rwa [List.head?_reverse] at hc))]
  exact List.reverse_reverse l

theorem pyReplaceFuel_single_del (z : Char) :
    ∀ (l : List Char) (fuel : Nat), l.length ≤ fuel →
    pyReplaceFuel [z] [] fuel l = l.filter fun c => !(c == z) := by
  intro l
  induction l with
  | nil => intro fuel _; cases fuel <;> rfl
  | cons c rest ih =>
    intro fuel hf
    cases fuel with
    | zero => simp at hf
    | succ f =>
      have hrest : rest.length ≤ f := by simpa using hf
      by_cases hc : c = z
      · subst hc
        have hcond : (!([c] : List Char).isEmpty && isPrefixB [c] (c :: rest)) = true := by
          simp [isPrefixB]
        simp only [pyReplaceFuel, hcond, if_true]
        simp [ih f hrest]
      · have hcond : (!([z] : List Char).isEmpty && isPrefixB [z] (c :: rest)) = false := by
          simp [isPrefixB, Ne.symm hc]
        simp only [pyReplaceFuel, hcond, Bool.false_eq_true, if_false]
        simp [ih f hrest, hc]

theorem clean_text_normalized (s : String) : textNormalized (clean_text s) := by
  unfold clean_text
  by_cases hs : s = ""
  · rw [if_pos hs]
    refine ⟨?_, ?_, ?_, List.chain'_nil⟩
    · intro c hc; cases hc
    · intro c hc; cases hc
    · intro c hc; cases hc
  · rw [if_neg hs]
    rw [pyReplaceFuel_single_del zwspChar s.data s.data.length le_rfl]
    have hwords := pySplitAux_words
      (s.data.filter fun c => !(c == zwspChar)) [] (by intro c hc; cases hc)
    have hgood : ∀ w ∈ pySplitAux (s.data.filter fun c => !(c == zwspChar)) [],
        w ≠ [] ∧ ∀ c ∈ w, pyIsSpace c = false := by
      intro w hw
      obtain ⟨hne, hall⟩ := hwords w hw
      exact ⟨hne, fun c hc => (hall c hc).1⟩
    have hmemz : ∀ c ∈ joinWords
        (pySplitAux (s.data.filter fun c => !(c == zwspChar)) []),
        c ≠ zwspChar := by
      intro c hc
      rcases joinWords_mem _ c hc with rfl | ⟨w, hw, hcw⟩
      · decide
      · obtain ⟨_, hall⟩ := hwords w hw
        rcases (hall c hcw).2 with hm | hm
        · have := (List.mem_filter.1 hm).2
          intro hbad
          rw [hbad] at this
          simp at this
        · cases hm
    have hhead : ∀ c ∈ (joinWords
        (pySplitAux (s.data.filter fun c => !(c == zwspChar)) [])).head?,
        pyIsSpace c = false := by
      intro c hc
      cases hws : pySplitAux (s.data.filter fun c => !(c == zwspChar)) [] with
      | nil => rw [hws] at hc; cases hc
      | cons w ws =>
        rw [hws] at hc
        have hw := hgood w (by rw [hws]; exact List.mem_cons_self w ws)
        rw [joinWords_headQ w ws hw.1] at hc
        exact hw.2 c (mem_of_headQ hc)
    have hlast : ∀ c ∈ (joinWords
        (pySplitAux (s.data.filter fun c => !(c == zwspChar)) [])).getLast?,
        pyIsSpace c = false :=
      joinWords_last_nonspace _ hgood
    have hchain : noSpaceRun (joinWords
        (pySplitAux (s.data.filter fun c => !(c == zwspChar)) [])) :=
      joinWords_noSpaceRun _ hgood
    rw [pyStrip_eq_self _ hhead hlast]
    exact ⟨hmemz, hhead, hlast, hchain⟩

/-- Claim C9: every SearchResult exposed by the extraction routine has its
three fields normalized — after _clean_text none contains a zero-width
space, none has leading or trailing whitespace, and no two adjacent
characters are both whitespace (internal runs are collapsed to one space). -/
theorem c9_results_normalized :
    ∀ (L : Option Int) (page : PageModel) (r : SearchResult),
    r ∈ okResults (parse_results L page) →
    textNormalized r.title ∧ textNormalized r.link ∧ textNormalized r.snippet := by
  intro L page r hr
  cases hd : page.domLoadedInTime with
  | false =>
    rw [show okResults (parse_results L page) = [] by
          simp [parse_results, hd, okResults]] at hr
    cases hr
  | true =>
    have hok : okResults (parse_results L page) =
        (extractLoop (pyOrInt L 10) page.links []).map
          fun raw => create_search_result raw.title raw.link raw.snippet := by
      simp [parse_results, hd, okResults]
    rw [hok] at hr
    rcases List.mem_map.1 hr with ⟨raw, _, rfl⟩
    exact ⟨clean_text_normalized raw.title, clean_text_normalized raw.link,
      clean_text_normalized raw.snippet⟩

/-- Witness for C9: the single result extracted from the concrete page is
normalized in all three fields. -/
theorem c9_witness :
    textNormalized
        (SearchResult.mk "Example Title" "https://example.com/a"
          "An example snippet").title ∧
      textNormalized
        (SearchResult.mk "Example Title" "https://example.com/a"
          "An example snippet").link ∧
      textNormalized
        (SearchResult.mk "Example Title" "https://example.com/a"
          "An example snippet").snippet :=
  c9_results_normalized (some 10) pageOneLink
    ⟨"Example Title", "https://example.com/a", "An example snippet"⟩
    (by decide)
